import Mathlib

/-!
# Verification of the L'Oréal chatbox conversation core (`src/script.js`)

Shallow embedding of the conversation-management core of `script.js`:
the transcript store (the `messages` array), the submit handler attached
to `chatForm`, the regex-based name heuristic, and the rendered chat
window.  The remote completion service and the credential collaborator
are modelled as an environment supplied to each submit cycle.

Conventions:
* JS strings are Lean `String`s; character classes follow the ASCII
  fragment of the JS definitions (`\w = [A-Za-z0-9_]`, `\s` the ASCII
  whitespace characters), which covers every behaviour the claims touch.
* The `fetch` promise is an oracle value in the environment: either a
  rejection (network error) or a resolved response with a status, a body
  text and a parse result for `data.choices[0].message.content`.
* DOM mutations made by `appendMessage` / `showLatestQuestion` are
  modelled as a list of bubbles (`window`); the transient `…thinking`
  bubble is appended and removed again on every completed path, so it
  does not appear in the end-of-cycle window.
-/

namespace Chatbox

/-- Role of one conversational entry (`role` field of a messages item). -/
inductive Role where
  | system
  | user
  | assistant
deriving DecidableEq, Repr

/-- One conversational entry of the `messages` array. -/
structure Turn where
  role : Role
  content : String
deriving DecidableEq, Repr

/-- One rendered element of the chat window: a message bubble created by
`appendMessage` (text, css class, optional name label) or the
`latest-question` block created by `showLatestQuestion`. -/
inductive Bubble where
  | msg (text : String) (cls : String) (nameLabel : Option String)
  | latest (text : String)
deriving DecidableEq, Repr

/-- Whether a bubble is the `latest-question` block
(`showLatestQuestion` removes it before appending a fresh one). -/
def Bubble.isLatest : Bubble → Bool
  | .latest _ => true
  | _ => false

/-- `chatWindow` minus any `latest-question` block
(the `existing.remove()` step of `showLatestQuestion`). -/
def removeLatest (w : List Bubble) : List Bubble :=
  w.filter (fun b => !b.isLatest)

/-! ## JS string helpers -/

/-- ASCII fragment of the JS whitespace class `\s`. -/
def isJsSpace (c : Char) : Bool :=
  c = ' ' || c = '\t' || c = '\n' || c = '\x0d' || c = '\x0b' || c = '\x0c'

/-- `String.prototype.trim()` (ASCII whitespace fragment). -/
def jsTrim (s : String) : String :=
  String.mk (((s.data.dropWhile isJsSpace).reverse.dropWhile isJsSpace).reverse)

/-- JS word character `\w = [A-Za-z0-9_]`, used by the `\b` assertion. -/
def isWordChar (c : Char) : Bool :=
  c.isAlpha || c.isDigit || c = '_'

/-! ## The name heuristic regex

`text.match(/\b(?:my name is|i'm|i am)\s+([A-Z][a-z]+)\b/i)`

Because of the `i` flag both the phrase and the character classes
`[A-Z]`, `[a-z]` are case-insensitive, so the captured token is any run
of at least two ASCII letters.  The matcher below implements the
backtracking semantics of this concrete pattern: leftmost starting
position wins, alternatives are tried in source order, `\s+` and
`[a-z]+` are greedy (for this pattern greediness is deterministic: a
shorter letter run can never restore the trailing `\b`). -/

/-- Case-insensitive literal match: consumes `phrase` (given lowercase)
from the head of `s`, returning the remainder. -/
def matchPhraseCI : List Char → List Char → Option (List Char)
  | [], rest => some rest
  | _ :: _, [] => none
  | p :: ps, c :: cs => if c.toLower = p then matchPhraseCI ps cs else none

/-- Matches `\s+([A-Z][a-z]+)\b` (with `/i`) at the head of `rest`,
returning the captured group. -/
def matchNameTail (rest : List Char) : Option String :=
  match rest with
  | [] => none
  | c :: cs =>
    if isJsSpace c then
      let afterWs := cs.dropWhile isJsSpace
      let letters := afterWs.takeWhile (fun x => x.isAlpha)
      let rest2 := afterWs.dropWhile (fun x => x.isAlpha)
      if 2 ≤ letters.length then
        match rest2 with
        | [] => some (String.mk letters)
        | e :: _ => if isWordChar e then none else some (String.mk letters)
      else none
    else none

/-- Tries the three alternatives of the group, in source order, at the
current starting position. -/
def tryAlternatives (s : List Char) : Option String :=
  match (matchPhraseCI ("my name is".data) s).bind matchNameTail with
  | some n => some n
  | none =>
    match (matchPhraseCI ("i'm".data) s).bind matchNameTail with
    | some n => some n
    | none => (matchPhraseCI ("i am".data) s).bind matchNameTail

/-- Scans starting positions left to right; `bOK` says whether the `\b`
assertion holds before the current position (start of string, or the
previous character is not a word character; every alternative starts
with a letter, hence a word character). -/
def scanName : List Char → Bool → Option String
  | [], _ => none
  | c :: cs, bOK =>
    match (if bOK then tryAlternatives (c :: cs) else none) with
    | some n => some n
    | none => scanName cs (!isWordChar c)

/-- `text.match(/\b(?:my name is|i'm|i am)\s+([A-Z][a-z]+)\b/i)`,
returning the captured group 1 of the first match, if any. -/
def nameMatch (text : String) : Option String :=
  scanName text.data true

/-! ## Environment: credential collaborator and completion service -/

/-- A resolved `fetch` response: HTTP status, `resp.text()` body, and
the outcome of `resp.json()` projected to
`data?.choices?.[0]?.message?.content` (`Except.error` models a JSON
parse failure, `Except.ok none` a missing content path). -/
structure Response where
  status : Nat
  bodyText : String
  json : Except String (Option String)
deriving Repr

/-- `Response.ok` of the Fetch standard: status in the range 200–299. -/
def respOk (r : Response) : Bool :=
  decide (200 ≤ r.status ∧ r.status < 300)

/-- Outcome of the single `fetch` call, were it issued. -/
inductive FetchResult where
  | reject (msg : String)
  | resolve (r : Response)
deriving Repr

/-- Per-cycle environment: the load-time credential signal
`OPENAI_KEY_PRESENT`, the `OPENAI_API_KEY` value, and the completion
service oracle. -/
structure Env where
  keyPresent : Bool
  apiKey : String
  fetch : FetchResult
deriving Repr

/-- The outbound request built by the `fetch` call. -/
structure Request where
  url : String
  method : String
  contentType : String
  authHeader : String
  model : String
  messages : List Turn
  max_tokens : Nat
deriving DecidableEq, Repr

/-- The request of `script.js` lines 118–129 for a given transcript
snapshot. -/
def mkRequest (apiKey : String) (snapshot : List Turn) : Request :=
  { url := "https://api.openai.com/v1/chat/completions"
    method := "POST"
    contentType := "application/json"
    authHeader := "Bearer " ++ apiKey
    model := "gpt-4o"
    messages := snapshot
    max_tokens := 600 }

/-! ## State -/

/-- Session state: the `messages` array, the `userName` variable, the
rendered chat window, and the input box (`userInput.value`,
`userInput.disabled`). -/
structure St where
  messages : List Turn
  userName : Option String
  window : List Bubble
  inputValue : String
  inputDisabled : Bool
deriving DecidableEq, Repr

/-- The fixed behavioural instruction (`SYSTEM_PROMPT`). -/
def SYSTEM_PROMPT : String :=
  "You are a helpful assistant that ONLY answers questions about L'Oréal products, routines, and related beauty topics (skincare, haircare, makeup, product recommendations, ingredients, usage, and routines). Always be concise, accurate, and polite. Ask clarifying questions when needed. If a user asks anything unrelated to L'Oréal or general beauty topics, politely refuse with: \"Sorry — I can only help with L'Oréal products, routines, and related beauty questions.\" Do not provide medical, legal, or diagnostic advice; instead direct users to consult a qualified professional."

/-- The initial assistant greeting (`initialText`). -/
def initialText : String :=
  "👋 Hello! How can I help you with L'Oréal products or routines today?"

/-- Page-load state: `messages` seeded with the system instruction and
the greeting, the greeting bubble rendered, input enabled. -/
def initSt : St :=
  { messages := [⟨Role.system, SYSTEM_PROMPT⟩, ⟨Role.assistant, initialText⟩]
    userName := none
    window := [Bubble.msg initialText "ai" none]
    inputValue := ""
    inputDisabled := false }

/-! ## The submit handler -/

/-- The `try` block from the credential check onwards: returns the
request issued (if any) and either the extracted reply content
(`Except.ok`) or the message of the thrown error (`Except.error`). -/
def tryCall (snapshot : List Turn) (env : Env) : Option Request × Except String String :=
  if env.keyPresent then
    let req := mkRequest env.apiKey snapshot
    match env.fetch with
    | .reject m => (some req, .error m)
    | .resolve r =>
      if respOk r then
        match r.json with
        | .error m => (some req, .error m)
        | .ok none => (some req, .error "No content in API response.")
        | .ok (some c) =>
          if c = "" then (some req, .error "No content in API response.")
          else (some req, .ok c)
      else (some req, .error ("API error: " ++ toString r.status ++ " " ++ r.bodyText))
  else (none, .error "OpenAI API key not found. Create secrets.js and define OPENAI_API_KEY.")

/-- The system turn(s) injected by the name heuristic for a given
trimmed input: one turn on a match, none otherwise. -/
def nameTurns (text : String) : List Turn :=
  match nameMatch text with
  | some n => [⟨Role.system, "User's name is " ++ n ++ "."⟩]
  | none => []

/-- The `userName` variable after the heuristic ran on `text`. -/
def userNameAfter (old : Option String) (text : String) : Option String :=
  match nameMatch text with
  | some n => some n
  | none => old

/-- Result of one submit cycle: the new session state and the outbound
request, if one was issued. -/
structure SubmitResult where
  st : St
  request : Option Request
deriving DecidableEq, Repr

/-- One run of the `chatForm` submit handler.  `rawText` is
`userInput.value` at event time.  The trimmed text is guarded, the name
heuristic may inject a system turn, the user turn is appended, the user
bubble and the latest-question block are rendered, and the `try` block
either appends the assistant reply to `messages` (success) or only
renders an error bubble (failure); the `finally` block re-enables the
input on every completed path. -/
def submit (st : St) (env : Env) (rawText : String) : SubmitResult :=
  let text := jsTrim rawText
  if text = "" then { st := st, request := none }
  else
    let userName1 := userNameAfter st.userName text
    let msgs2 := st.messages ++ nameTurns text ++ [⟨Role.user, text⟩]
    let label := userName1.getD "You"
    let winBase := removeLatest st.window ++
      [Bubble.msg text "user" (some label),
       Bubble.latest ("Latest question: " ++ text)]
    match tryCall msgs2 env with
    | (req, Except.ok c) =>
      { st := { messages := msgs2 ++ [⟨Role.assistant, c⟩]
                userName := userName1
                window := winBase ++ [Bubble.msg c "ai" none]
                inputValue := ""
                inputDisabled := false }
        request := req }
    | (req, Except.error m) =>
      { st := { messages := msgs2
                userName := userName1
                window := winBase ++ [Bubble.msg ("Error: " ++ m) "ai" none]
                inputValue := ""
                inputDisabled := false }
        request := req }

/-- States reachable by any sequence of submit cycles from page load. -/
inductive Reachable : St → Prop
  | init : Reachable initSt
  | step (st : St) (env : Env) (rawText : String) :
      Reachable st → Reachable (submit st env rawText).st

/-- Whether the cycle ends in the `catch` block for this environment
(missing credential, network rejection, non-success status, JSON parse
failure, or missing/empty content). -/
def cycleFails (env : Env) : Bool :=
  if env.keyPresent then
    match env.fetch with
    | .reject _ => true
    | .resolve r =>
      if respOk r then
        match r.json with
        | .error _ => true
        | .ok none => true
        | .ok (some c) => c = ""
      else true
  else true

/-- The `err.message` of the failing cycle (meaningful when
`cycleFails env = true`). -/
def errMessage (env : Env) : String :=
  if env.keyPresent then
    match env.fetch with
    | .reject m => m
    | .resolve r =>
      if respOk r then
        match r.json with
        | .error m => m
        | .ok _ => "No content in API response."
      else "API error: " ++ toString r.status ++ " " ++ r.bodyText
  else "OpenAI API key not found. Create secrets.js and define OPENAI_API_KEY."

/-- The extracted reply content of the succeeding cycle (meaningful when
`cycleFails env = false`). -/
def okContent (env : Env) : String :=
  match env.fetch with
  | .resolve r =>
    match r.json with
    | .ok (some c) => c
    | _ => ""
  | _ => ""

/-- `sub` occurs as a contiguous substring of `s`. -/
def containsText (s sub : String) : Prop :=
  ∃ l r, s.data = l ++ sub.data ++ r

/-! ## Concrete environments used to exercise the model -/

/-- Environment with no credential (`OPENAI_API_KEY` undefined). -/
def envNoKey : Env :=
  { keyPresent := false, apiKey := "", fetch := FetchResult.reject "unused" }

/-- Environment with a credential and a successful response carrying
content `"Hi there!"`. -/
def envOk : Env :=
  { keyPresent := true, apiKey := "k"
    fetch := FetchResult.resolve { status := 200, bodyText := "", json := Except.ok (some "Hi there!") } }

/-- Environment with a credential and an HTTP 500 response with body
`"server error"`. -/
def env500 : Env :=
  { keyPresent := true, apiKey := "k"
    fetch := FetchResult.resolve { status := 500, bodyText := "server error", json := Except.ok none } }

/-- Environment with a credential and a successful response whose
first-choice message content is the empty string. -/
def envEmptyContent : Env :=
  { keyPresent := true, apiKey := "k"
    fetch := FetchResult.resolve { status := 200, bodyText := "", json := Except.ok (some "") } }

/-! ## Characterization lemmas for one submit cycle -/

theorem tryCall_fail (s : List Turn) (env : Env) (hf : cycleFails env = true) :
    tryCall s env =
      ((if env.keyPresent then some (mkRequest env.apiKey s) else none),
       Except.error (errMessage env)) := by
  rcases env with ⟨kp, key, f⟩
  cases kp
  · rfl
  · cases f with
    | reject m => rfl
    | resolve r =>
      rcases r with ⟨stat, bt, j⟩
      simp only [tryCall, cycleFails, errMessage] at hf ⊢
      by_cases h : respOk ⟨stat, bt, j⟩
      · simp only [h, if_true] at hf ⊢
        cases j with
        | error m => rfl
        | ok c =>
          cases c with
          | none => rfl
          | some v =>
            simp only [decide_eq_true_eq] at hf
            simp [hf]
      · simp [h]

theorem tryCall_ok (s : List Turn) (env : Env) (hf : cycleFails env = false) :
    tryCall s env = (some (mkRequest env.apiKey s), Except.ok (okContent env)) := by
  rcases env with ⟨kp, key, f⟩
  cases kp
  · simp [cycleFails] at hf
  · cases f with
    | reject m => simp [cycleFails] at hf
    | resolve r =>
      rcases r with ⟨stat, bt, j⟩
      simp only [tryCall, cycleFails, okContent] at hf ⊢
      by_cases h : respOk ⟨stat, bt, j⟩
      · simp only [h, if_true] at hf ⊢
        cases j with
        | error m => simp at hf
        | ok c =>
          cases c with
          | none => simp at hf
          | some v =>
            simp only [decide_eq_false_iff_not] at hf
            simp [hf]
      · simp [h] at hf

theorem okContent_ne_empty (env : Env) (hf : cycleFails env = false) :
    okContent env ≠ "" := by
  rcases env with ⟨kp, key, f⟩
  cases kp
  · simp [cycleFails] at hf
  · cases f with
    | reject m => simp [cycleFails] at hf
    | resolve r =>
      rcases r with ⟨stat, bt, j⟩
      simp only [cycleFails, okContent] at hf ⊢
      by_cases h : respOk ⟨stat, bt, j⟩
      · simp only [h, if_true] at hf
        cases j with
        | error m => simp at hf
        | ok c =>
          cases c with
          | none => simp at hf
          | some v =>
            simp only [decide_eq_false_iff_not] at hf
            simpa using hf
      · simp [h] at hf

theorem submit_of_empty (st : St) (env : Env) (t : String) (h : jsTrim t = "") :
    submit st env t = { st := st, request := none } := by
  simp [submit, h]

theorem submit_of_fail (st : St) (env : Env) (t : String)
    (h : jsTrim t ≠ "") (hf : cycleFails env = true) :
    submit st env t =
      { st := { messages := st.messages ++ nameTurns (jsTrim t) ++ [⟨Role.user, jsTrim t⟩]
                userName := userNameAfter st.userName (jsTrim t)
                window := removeLatest st.window ++
                  [Bubble.msg (jsTrim t) "user"
                     (some ((userNameAfter st.userName (jsTrim t)).getD "You")),
                   Bubble.latest ("Latest question: " ++ jsTrim t),
                   Bubble.msg ("Error: " ++ errMessage env) "ai" none]
                inputValue := ""
                inputDisabled := false }
        request := if env.keyPresent then
            some (mkRequest env.apiKey
              (st.messages ++ nameTurns (jsTrim t) ++ [⟨Role.user, jsTrim t⟩]))
          else none } := by
  simp only [submit, if_neg h, tryCall_fail _ _ hf, List.append_assoc, List.cons_append,
    List.nil_append]

theorem submit_of_ok (st : St) (env : Env) (t : String)
    (h : jsTrim t ≠ "") (hf : cycleFails env = false) :
    submit st env t =
      { st := { messages := st.messages ++ nameTurns (jsTrim t) ++
                  [⟨Role.user, jsTrim t⟩, ⟨Role.assistant, okContent env⟩]
                userName := userNameAfter st.userName (jsTrim t)
                window := removeLatest st.window ++
                  [Bubble.msg (jsTrim t) "user"
                     (some ((userNameAfter st.userName (jsTrim t)).getD "You")),
                   Bubble.latest ("Latest question: " ++ jsTrim t),
                   Bubble.msg (okContent env) "ai" none]
                inputValue := ""
                inputDisabled := false }
        request := some (mkRequest env.apiKey
          (st.messages ++ nameTurns (jsTrim t) ++ [⟨Role.user, jsTrim t⟩])) } := by
  simp only [submit, if_neg h, tryCall_ok _ _ hf, List.append_assoc, List.cons_append,
    List.nil_append]

theorem submit_messages_take (st : St) (env : Env) (t : String) :
    (submit st env t).st.messages.take st.messages.length = st.messages := by
  by_cases h : jsTrim t = ""
  · rw [submit_of_empty st env t h]
    exact List.take_length _
  · cases hf : cycleFails env
    · rw [submit_of_ok st env t h hf]
      simp only [List.append_assoc]
      exact List.take_left _ _
    · rw [submit_of_fail st env t h hf]
      simp only [List.append_assoc]
      exact List.take_left _ _

theorem submit_messages_extend (st : St) (env : Env) (t : String) :
    ∃ rest, (submit st env t).st.messages = st.messages ++ rest := by
  by_cases h : jsTrim t = ""
  · exact ⟨[], by rw [submit_of_empty st env t h, List.append_nil]⟩
  · cases hf : cycleFails env
    · refine ⟨nameTurns (jsTrim t) ++
        [⟨Role.user, jsTrim t⟩, ⟨Role.assistant, okContent env⟩], ?_⟩
      rw [submit_of_ok st env t h hf]
      simp [List.append_assoc]
    · refine ⟨nameTurns (jsTrim t) ++ [⟨Role.user, jsTrim t⟩], ?_⟩
      rw [submit_of_fail st env t h hf]
      simp [List.append_assoc]

theorem head?_append_of_some {α : Type} {l m : List α} {a : α}
    (h : l.head? = some a) : (l ++ m).head? = some a := by
  cases l with
  | nil => simp at h
  | cons x xs => simpa using h

theorem reachable_head {st : St} (h : Reachable st) :
    st.messages.head? = some ⟨Role.system, SYSTEM_PROMPT⟩ := by
  induction h with
  | init => rfl
  | step st env t _ ih =>
    obtain ⟨rest, hrest⟩ := submit_messages_extend st env t
    rw [hrest]
    exact head?_append_of_some ih

/-- C7: in every reachable state of the Transcript the Turn at index 0
is the fixed system instruction, and every submit cycle only appends:
the previous transcript is literally the initial segment of the new one
(no Turn is removed, replaced or reordered). -/
theorem c7_transcript_invariant (st : St) (h : Reachable st) :
    st.messages.head? = some ⟨Role.system, SYSTEM_PROMPT⟩ ∧
    ∀ env t, (submit st env t).st.messages.take st.messages.length = st.messages :=
  ⟨reachable_head h, fun env t => submit_messages_take st env t⟩

theorem c7_transcript_invariant_witness :
    initSt.messages.head? = some ⟨Role.system, SYSTEM_PROMPT⟩ ∧
    (submit initSt envNoKey "Hi").st.messages.take initSt.messages.length = initSt.messages :=
  ⟨(c7_transcript_invariant initSt Reachable.init).1,
   (c7_transcript_invariant initSt Reachable.init).2 envNoKey "Hi"⟩

/-- C2: an input that is empty after trimming is a no-op: the state
(hence the transcript and the window) is unchanged and no outbound
request is issued. -/
theorem c2_empty_input_noop (st : St) (env : Env) (t : String) (h : jsTrim t = "") :
    (submit st env t).st = st ∧ (submit st env t).request = none := by
  rw [submit_of_empty st env t h]
  exact ⟨rfl, rfl⟩

theorem c2_empty_input_noop_witness :
    jsTrim "  " = "" ∧ (submit initSt envNoKey "  ").st = initSt ∧
      (submit initSt envNoKey "  ").request = none :=
  ⟨rfl, c2_empty_input_noop initSt envNoKey "  " rfl⟩

/-- C8: after every submit cycle completes — success or any failure —
the input is re-enabled (`finally` block), so the controller is back in
the idle state; a trivially-empty submission leaves an idle controller
idle. -/
theorem c8_returns_to_idle (st : St) (env : Env) (t : String)
    (h : jsTrim t ≠ "" ∨ st.inputDisabled = false) :
    (submit st env t).st.inputDisabled = false := by
  by_cases he : jsTrim t = ""
  · rw [submit_of_empty st env t he]
    rcases h with h | h
    · exact absurd he h
    · exact h
  · cases hf : cycleFails env
    · rw [submit_of_ok st env t he hf]
    · rw [submit_of_fail st env t he hf]

theorem c8_returns_to_idle_witness :
    (jsTrim "Hi" ≠ "" ∨ initSt.inputDisabled = false) ∧
      (submit initSt env500 "Hi").st.inputDisabled = false :=
  ⟨Or.inl (by decide), c8_returns_to_idle initSt env500 "Hi" (Or.inl (by decide))⟩

theorem getLast?_append_three {α : Type} (w : List α) (a b c : α) :
    (w ++ [a, b, c]).getLast? = some c := by
  rw [show w ++ [a, b, c] = (w ++ [a, b]) ++ [c] by simp, List.getLast?_concat]

/-- C1 counterexample: for a failing submission (here: missing
credential, input "Hi") the transcript afterwards is exactly the old
transcript plus the user Turn — no assistant-role error Turn is
appended to the Transcript, and the number of assistant Turns in the
transcript does not change. -/
theorem c1_no_error_turn_in_transcript_cex :
    (submit initSt envNoKey "Hi").st.messages =
      initSt.messages ++ [⟨Role.user, "Hi"⟩] ∧
    ((submit initSt envNoKey "Hi").st.messages.filter
        (fun turn => turn.role == Role.assistant)).length =
      (initSt.messages.filter (fun turn => turn.role == Role.assistant)).length := by
  exact ⟨rfl, rfl⟩

/-- C1 (amended): for every submission that ends in failure (network
error, non-success HTTP status, missing credential, JSON failure, or
missing content) the Turn Controller renders exactly one
assistant-styled error bubble, whose text is "Error: " followed by a
human-readable description, to the presentation layer; it appends
nothing to the Transcript after the user Turn of that submission — in
particular no error Turn enters the Transcript. -/
theorem c1_failure_renders_error_only (st : St) (env : Env) (t : String)
    (h : jsTrim t ≠ "") (hf : cycleFails env = true) :
    (submit st env t).st.messages =
      st.messages ++ nameTurns (jsTrim t) ++ [⟨Role.user, jsTrim t⟩] ∧
    (submit st env t).st.window =
      removeLatest st.window ++
        [Bubble.msg (jsTrim t) "user"
           (some ((userNameAfter st.userName (jsTrim t)).getD "You")),
         Bubble.latest ("Latest question: " ++ jsTrim t),
         Bubble.msg ("Error: " ++ errMessage env) "ai" none] := by
  rw [submit_of_fail st env t h hf]
  exact ⟨rfl, rfl⟩

theorem c1_failure_renders_error_only_witness :
    jsTrim "Hi" ≠ "" ∧ cycleFails envNoKey = true ∧
    (submit initSt envNoKey "Hi").st.messages =
      initSt.messages ++ nameTurns (jsTrim "Hi") ++ [⟨Role.user, jsTrim "Hi"⟩] ∧
    (submit initSt envNoKey "Hi").st.window =
      removeLatest initSt.window ++
        [Bubble.msg (jsTrim "Hi") "user"
           (some ((userNameAfter initSt.userName (jsTrim "Hi")).getD "You")),
         Bubble.latest ("Latest question: " ++ jsTrim "Hi"),
         Bubble.msg ("Error: " ++ errMessage envNoKey) "ai" none] :=
  ⟨by decide, rfl,
   c1_failure_renders_error_only initSt envNoKey "Hi" (by decide) rfl⟩

/-- C5: with no credential available, a non-empty submission issues no
outbound request at all; the user Turn (and a possible name Turn) is
still appended first, and the cycle ends on the failure path rendering
the specific missing-credential message. -/
theorem c5_missing_credential (st : St) (env : Env) (t : String)
    (h : jsTrim t ≠ "") (hk : env.keyPresent = false) :
    (submit st env t).request = none ∧
    (submit st env t).st.messages =
      st.messages ++ nameTurns (jsTrim t) ++ [⟨Role.user, jsTrim t⟩] ∧
    (submit st env t).st.window.getLast? =
      some (Bubble.msg
        "Error: OpenAI API key not found. Create secrets.js and define OPENAI_API_KEY."
        "ai" none) := by
  have hf : cycleFails env = true := by simp [cycleFails, hk]
  rw [submit_of_fail st env t h hf]
  refine ⟨by simp [hk], rfl, ?_⟩
  rw [getLast?_append_three]
  simp [errMessage, hk]

theorem c5_missing_credential_witness :
    jsTrim "Hi" ≠ "" ∧ envNoKey.keyPresent = false ∧
    (submit initSt envNoKey "Hi").request = none ∧
    (submit initSt envNoKey "Hi").st.messages =
      initSt.messages ++ nameTurns (jsTrim "Hi") ++ [⟨Role.user, jsTrim "Hi"⟩] ∧
    (submit initSt envNoKey "Hi").st.window.getLast? =
      some (Bubble.msg
        "Error: OpenAI API key not found. Create secrets.js and define OPENAI_API_KEY."
        "ai" none) :=
  ⟨by decide, rfl, c5_missing_credential initSt envNoKey "Hi" (by decide) rfl⟩

/-- C6: when the service responds with a non-success HTTP status, the
error text rendered for that submission is
"Error: API error: <status> <body>", which contains both the decimal
status code and the response body text as substrings. -/
theorem c6_error_status_message (st : St) (env : Env) (t : String) (r : Response)
    (h : jsTrim t ≠ "") (hk : env.keyPresent = true)
    (hr : env.fetch = FetchResult.resolve r) (hok : respOk r = false) :
    (submit st env t).st.window.getLast? =
      some (Bubble.msg
        ("Error: " ++ ("API error: " ++ toString r.status ++ " " ++ r.bodyText))
        "ai" none) ∧
    containsText ("Error: " ++ ("API error: " ++ toString r.status ++ " " ++ r.bodyText))
      (toString r.status) ∧
    containsText ("Error: " ++ ("API error: " ++ toString r.status ++ " " ++ r.bodyText))
      r.bodyText := by
  have hf : cycleFails env = true := by simp [cycleFails, hk, hr, hok]
  have hm : errMessage env = "API error: " ++ toString r.status ++ " " ++ r.bodyText := by
    simp [errMessage, hk, hr, hok]
  refine ⟨?_, ?_, ?_⟩
  · rw [submit_of_fail st env t h hf, hm, getLast?_append_three]
  · exact ⟨("Error: " ++ "API error: ").data, (" " ++ r.bodyText).data,
      by simp [String.data_append, List.append_assoc]⟩
  · exact ⟨("Error: " ++ "API error: " ++ toString r.status ++ " ").data, [],
      by simp [String.data_append, List.append_assoc]⟩

theorem c6_error_status_message_witness :
    jsTrim "Hi" ≠ "" ∧ env500.keyPresent = true ∧
    env500.fetch = FetchResult.resolve ⟨500, "server error", Except.ok none⟩ ∧
    respOk ⟨500, "server error", Except.ok none⟩ = false ∧
    (submit initSt env500 "Hi").st.window.getLast? =
      some (Bubble.msg
        ("Error: " ++ ("API error: " ++ toString (500 : Nat) ++ " " ++ "server error"))
        "ai" none) ∧
    containsText ("Error: " ++ ("API error: " ++ toString (500 : Nat) ++ " " ++ "server error"))
      (toString (500 : Nat)) ∧
    containsText ("Error: " ++ ("API error: " ++ toString (500 : Nat) ++ " " ++ "server error"))
      "server error" :=
  ⟨by decide, rfl, rfl, rfl,
   c6_error_status_message initSt env500 "Hi" ⟨500, "server error", Except.ok none⟩
     (by decide) rfl rfl rfl⟩

/-- C9: every submit cycle with a non-empty input and an available
credential issues exactly one outbound request: a POST to the
completions endpoint with the fixed model identifier "gpt-4o", the full
current transcript snapshot (every Turn appended so far, in order,
including any injected system Turn), and the fixed cap max_tokens =
600. -/
theorem c9_single_post_request (st : St) (env : Env) (t : String)
    (h : jsTrim t ≠ "") (hk : env.keyPresent = true) :
    (submit st env t).request =
      some (mkRequest env.apiKey
        (st.messages ++ nameTurns (jsTrim t) ++ [⟨Role.user, jsTrim t⟩])) ∧
    (mkRequest env.apiKey
        (st.messages ++ nameTurns (jsTrim t) ++ [⟨Role.user, jsTrim t⟩])).method = "POST" ∧
    (mkRequest env.apiKey
        (st.messages ++ nameTurns (jsTrim t) ++ [⟨Role.user, jsTrim t⟩])).model = "gpt-4o" ∧
    (mkRequest env.apiKey
        (st.messages ++ nameTurns (jsTrim t) ++ [⟨Role.user, jsTrim t⟩])).max_tokens = 600 ∧
    (mkRequest env.apiKey
        (st.messages ++ nameTurns (jsTrim t) ++ [⟨Role.user, jsTrim t⟩])).messages =
      st.messages ++ nameTurns (jsTrim t) ++ [⟨Role.user, jsTrim t⟩] := by
  refine ⟨?_, rfl, rfl, rfl, rfl⟩
  cases hf : cycleFails env
  · rw [submit_of_ok st env t h hf]
  · rw [submit_of_fail st env t h hf]
    simp [hk]

theorem c9_single_post_request_witness :
    jsTrim "Hello" ≠ "" ∧ envOk.keyPresent = true ∧
    (submit initSt envOk "Hello").request =
      some (mkRequest envOk.apiKey
        (initSt.messages ++ nameTurns (jsTrim "Hello") ++ [⟨Role.user, jsTrim "Hello"⟩])) :=
  ⟨by decide, rfl,
   (c9_single_post_request initSt envOk "Hello" (by decide) rfl).1⟩

theorem nameMatch_empty : nameMatch "" = none := rfl

/-- C3: whenever the name heuristic matches the (trimmed) input, exactly
one system Turn "User's name is X." is appended, and it sits immediately
before the user Turn of the same submission; the only further Turn the
cycle can add is the assistant reply on success. -/
theorem c3_name_turn_before_user_turn (st : St) (env : Env) (t : String) (n : String)
    (h : nameMatch (jsTrim t) = some n) :
    (submit st env t).st.messages =
      st.messages ++
        [⟨Role.system, "User's name is " ++ n ++ "."⟩, ⟨Role.user, jsTrim t⟩] ++
        (if cycleFails env = true then [] else [⟨Role.assistant, okContent env⟩]) := by
  have hne : jsTrim t ≠ "" := by
    intro he
    rw [he, nameMatch_empty] at h
    exact Option.noConfusion h
  have hnt : nameTurns (jsTrim t) = [⟨Role.system, "User's name is " ++ n ++ "."⟩] := by
    simp [nameTurns, h]
  cases hf : cycleFails env
  · rw [submit_of_ok st env t hne hf, hnt]
    simp [hf, List.append_assoc]
  · rw [submit_of_fail st env t hne hf, hnt]
    simp [hf, List.append_assoc]

theorem c3_name_turn_before_user_turn_witness :
    nameMatch (jsTrim "My name is Alex, what shampoo should I use?") = some "Alex" ∧
    (submit initSt envNoKey "My name is Alex, what shampoo should I use?").st.messages =
      initSt.messages ++
        [⟨Role.system, "User's name is " ++ "Alex" ++ "."⟩,
         ⟨Role.user, jsTrim "My name is Alex, what shampoo should I use?"⟩] ++
        (if cycleFails envNoKey = true then []
         else [⟨Role.assistant, okContent envNoKey⟩]) :=
  ⟨rfl,
   c3_name_turn_before_user_turn initSt envNoKey
     "My name is Alex, what shampoo should I use?" "Alex" rfl⟩

/-- C4 counterexample: because of the regex `i` flag the classes
`[A-Z][a-z]+` are case-insensitive, so an uncapitalized name after
"my name is" still matches: on input "my name is alex" a name is
recorded and a system Turn is injected, contrary to the claim. -/
theorem c4_lowercase_name_matches_cex :
    nameMatch "my name is alex" = some "alex" ∧
    (submit initSt envNoKey "my name is alex").st.messages =
      initSt.messages ++
        [⟨Role.system, "User's name is alex."⟩, ⟨Role.user, "my name is alex"⟩] :=
  ⟨rfl, rfl⟩

theorem matchNameTail_shape {rest : List Char} {n : String}
    (h : matchNameTail rest = some n) :
    2 ≤ n.length ∧ n.data.all (fun c => c.isAlpha) = true := by
  cases rest with
  | nil => exact Option.noConfusion h
  | cons c cs =>
    simp only [matchNameTail] at h
    split at h
    · split at h
      · split at h
        · injection h with hn
          subst hn
          constructor
          · assumption
          · rw [List.all_eq_true]
            intro a ha
            exact List.mem_takeWhile_imp ha
        · split at h
          · exact Option.noConfusion h
          · injection h with hn
            subst hn
            constructor
            · assumption
            · rw [List.all_eq_true]
              intro a ha
              exact List.mem_takeWhile_imp ha
      · exact Option.noConfusion h
    · exact Option.noConfusion h

theorem tryAlternatives_shape {s : List Char} {n : String}
    (h : tryAlternatives s = some n) :
    2 ≤ n.length ∧ n.data.all (fun c => c.isAlpha) = true := by
  unfold tryAlternatives at h
  split at h
  next n' heq =>
    injection h with hn
    subst hn
    cases hmp : matchPhraseCI ("my name is".data) s with
    | none => rw [hmp] at heq; exact Option.noConfusion heq
    | some rest =>
      rw [hmp] at heq
      exact matchNameTail_shape heq
  next heq =>
    split at h
    next n' heq2 =>
      injection h with hn
      subst hn
      cases hmp : matchPhraseCI ("i'm".data) s with
      | none => rw [hmp] at heq2; exact Option.noConfusion heq2
      | some rest =>
        rw [hmp] at heq2
        exact matchNameTail_shape heq2
    next heq2 =>
      cases hmp : matchPhraseCI ("i am".data) s with
      | none => rw [hmp] at h; exact Option.noConfusion h
      | some rest =>
        rw [hmp] at h
        exact matchNameTail_shape h

theorem scanName_shape (s : List Char) : ∀ (b : Bool) (n : String),
    scanName s b = some n →
    2 ≤ n.length ∧ n.data.all (fun c => c.isAlpha) = true := by
  induction s with
  | nil => intro b n h; exact Option.noConfusion h
  | cons c cs ih =>
    intro b n h
    simp only [scanName] at h
    split at h
    next n' heq =>
      injection h with hn
      subst hn
      cases b with
      | false => simp at heq
      | true =>
        simp only [if_true] at heq
        exact tryAlternatives_shape heq
    next heq =>
      exact ih _ n h

/-- C4 (amended): the heuristic captures a token exactly by the pattern
with its `i` flag applied to the character classes too: the captured
name is any purely alphabetic token of at least two letters followed by
a word boundary, regardless of capitalization. -/
theorem c4_captured_token_alphabetic (t : String) (n : String)
    (h : nameMatch t = some n) :
    2 ≤ n.length ∧ n.data.all (fun c => c.isAlpha) = true :=
  scanName_shape t.data true n h

theorem c4_captured_token_alphabetic_witness :
    nameMatch "I'm Bob" = some "Bob" ∧
    (2 ≤ "Bob".length ∧ "Bob".data.all (fun c => c.isAlpha) = true) :=
  ⟨rfl, c4_captured_token_alphabetic "I'm Bob" "Bob" rfl⟩

theorem mem_nameTurns_role {text : String} {turn : Turn}
    (h : turn ∈ nameTurns text) : turn.role = Role.system := by
  unfold nameTurns at h
  split at h
  · simp at h
    rw [h]
  · simp at h

theorem submit_preserves_assistant_ne_empty (st : St) (env : Env) (t : String)
    (ih : ∀ turn ∈ st.messages, turn.role = Role.assistant → turn.content ≠ "") :
    ∀ turn ∈ (submit st env t).st.messages,
      turn.role = Role.assistant → turn.content ≠ "" := by
  by_cases h : jsTrim t = ""
  · rw [submit_of_empty st env t h]
    exact ih
  · cases hf : cycleFails env
    · rw [submit_of_ok st env t h hf]
      intro turn hmem hrole
      simp only [List.append_assoc, List.mem_append, List.mem_cons,
        List.not_mem_nil, or_false] at hmem
      rcases hmem with hmem | hmem | hmem | hmem
      · exact ih turn hmem hrole
      · rw [mem_nameTurns_role hmem] at hrole
        exact absurd hrole (by decide)
      · rw [hmem] at hrole
        simp at hrole
      · rw [hmem]
        exact okContent_ne_empty env hf
    · rw [submit_of_fail st env t h hf]
      intro turn hmem hrole
      simp only [List.append_assoc, List.mem_append, List.mem_cons,
        List.not_mem_nil, or_false] at hmem
      rcases hmem with hmem | hmem | hmem
      · exact ih turn hmem hrole
      · rw [mem_nameTurns_role hmem] at hrole
        exact absurd hrole (by decide)
      · rw [hmem] at hrole
        simp at hrole

theorem reachable_assistant_ne_empty {st : St} (h : Reachable st) :
    ∀ turn ∈ st.messages, turn.role = Role.assistant → turn.content ≠ "" := by
  induction h with
  | init =>
    intro turn hmem _
    simp only [initSt, List.mem_cons, List.not_mem_nil, or_false] at hmem
    rcases hmem with hmem | hmem <;> rw [hmem] <;> decide
  | step st env t _ ih =>
    exact submit_preserves_assistant_ne_empty st env t ih

/-- C10: a successful response whose first-choice message content is the
empty string is treated exactly like missing content: the cycle takes
the failure path ("No content in API response." is rendered and nothing
is appended to the Transcript after the user Turn); consequently no
reachable Transcript contains an assistant Turn with empty content. -/
theorem c10_empty_content_is_failure :
    (∀ (st : St) (env : Env) (t : String) (r : Response),
      jsTrim t ≠ "" → env.keyPresent = true → env.fetch = FetchResult.resolve r →
      respOk r = true → r.json = Except.ok (some "") →
      (submit st env t).st.messages =
        st.messages ++ nameTurns (jsTrim t) ++ [⟨Role.user, jsTrim t⟩] ∧
      (submit st env t).st.window.getLast? =
        some (Bubble.msg "Error: No content in API response." "ai" none)) ∧
    (∀ st : St, Reachable st →
      ∀ turn ∈ st.messages, turn.role = Role.assistant → turn.content ≠ "") := by
  constructor
  · intro st env t r h hk hr hok hj
    have hf : cycleFails env = true := by
      simp [cycleFails, hk, hr, hok, hj]
    have hm : errMessage env = "No content in API response." := by
      simp [errMessage, hk, hr, hok, hj]
    rw [submit_of_fail st env t h hf, hm]
    refine ⟨rfl, ?_⟩
    rw [getLast?_append_three]
    simp
  · intro st h
    exact reachable_assistant_ne_empty h

theorem c10_empty_content_is_failure_witness :
    ((submit initSt envEmptyContent "Hi").st.messages =
      initSt.messages ++ nameTurns (jsTrim "Hi") ++ [⟨Role.user, jsTrim "Hi"⟩] ∧
     (submit initSt envEmptyContent "Hi").st.window.getLast? =
      some (Bubble.msg "Error: No content in API response." "ai" none)) ∧
    (Turn.mk Role.assistant initialText ∈ initSt.messages ∧ initialText ≠ "") :=
  ⟨c10_empty_content_is_failure.1 initSt envEmptyContent "Hi"
     ⟨200, "", Except.ok (some "")⟩ (by decide) rfl rfl rfl rfl,
   by simp [initSt],
   c10_empty_content_is_failure.2 initSt Reachable.init
     ⟨Role.assistant, initialText⟩ (by simp [initSt]) rfl⟩

end Chatbox
